import Mathlib

/-
Verification of the authentication security core of the portfolio
repository: account lockout (apps/accounts/models.py, User), the login
form flow (apps/accounts/forms.py, SecureLoginForm.clean), the email
authentication backend (apps/accounts/backends.py), the login view's
audit trail (apps/accounts/views.py, LoginView.post), the rate limiter
(apps/accounts/middleware.py, RateLimitMiddleware) and the staff-moderated
password reset workflow (apps/accounts/models.py, PasswordResetRequest).

Time is modelled as a natural number of seconds; Django's make_password
is modelled as an injective tagging function (the claims only depend on
"a password validates against its own hash").
-/

namespace Portfolio

/-- Python str.lower(), character by character. -/
def lowerString (s : String) : String :=
  ⟨s.data.map Char.toLower⟩

/-- Python str.strip(): drop whitespace from both ends. -/
def stripString (s : String) : String :=
  ⟨((s.data.dropWhile Char.isWhitespace).reverse.dropWhile Char.isWhitespace).reverse⟩

/-- Python s[:n]: keep the first n characters. -/
def takeString (s : String) (n : Nat) : String :=
  ⟨s.data.take n⟩

/-- Model of Django's make_password: an opaque injective one-way hash is
modelled as a tagging function, sufficient for the properties at stake. -/
def make_password (raw : String) : String :=
  "pbkdf2_sha256$" ++ raw

/-- The User model (apps/accounts/models.py), restricted to the fields the
authentication core reads or writes. Timestamps are seconds as Nat. -/
structure User where
  email : String
  password : String
  is_active : Bool
  is_verified : Bool
  failed_login_attempts : Nat
  lockout_until : Option Nat
  last_login : Option Nat
  last_login_ip : Option String
  last_password_change : Option Nat
deriving DecidableEq

/-- Django's user.check_password: the stored hash matches the hash of the
submitted raw password. -/
def User.check_password (u : User) (raw : String) : Bool :=
  u.password == make_password raw

/-- Django's user.set_password. -/
def User.set_password (u : User) (raw : String) : User :=
  { u with password := make_password raw }

/-- User.is_locked (models.py line 158): locked iff lockout_until is set and
strictly after now. -/
def User.is_locked (u : User) (now : Nat) : Bool :=
  match u.lockout_until with
  | some t => decide (now < t)
  | none => false

/-- User.record_failed_login (models.py lines 165-179): increment the
counter; once the post-increment counter reaches 5, set
lockout_until = now + min(5 * 2^(attempts-5), 60) minutes. -/
def User.record_failed_login (u : User) (now : Nat) : User :=
  if 5 ≤ u.failed_login_attempts + 1 then
    { u with failed_login_attempts := u.failed_login_attempts + 1,
             lockout_until :=
               some (now + min (5 * 2 ^ (u.failed_login_attempts + 1 - 5)) 60 * 60) }
  else
    { u with failed_login_attempts := u.failed_login_attempts + 1 }

/-- User.record_successful_login (models.py lines 181-190): reset the
counter, clear the lockout, stamp last_login, and set last_login_ip when
an address was supplied (Python truthiness: None and "" are skipped). -/
def User.record_successful_login (u : User) (now : Nat) (ip_address : Option String) : User :=
  match ip_address with
  | some ip =>
    if ip = "" then
      { u with failed_login_attempts := 0, lockout_until := none, last_login := some now }
    else
      { u with failed_login_attempts := 0, lockout_until := none, last_login := some now,
               last_login_ip := some ip }
  | none =>
    { u with failed_login_attempts := 0, lockout_until := none, last_login := some now }

/-- User.get_lockout_remaining (models.py lines 192-197): remaining lockout
in minutes, computed as int(delta_seconds/60) + 1 when locked, else 0. -/
def User.get_lockout_remaining (u : User) (now : Nat) : Nat :=
  match u.lockout_until with
  | some t => if now < t then (t - now) / 60 + 1 else 0
  | none => 0

/-- The user table: User.objects.get(email=e) modelled as a list lookup. -/
def findUser (db : List User) (email : String) : Option User :=
  db.find? (fun u => u.email == email)

/-- Persisting a modified user row back to the table. -/
def updateUser (db : List User) (email : String) (u1 : User) : List User :=
  db.map (fun u => if u.email == email then u1 else u)

/-- Result of EmailAuthBackend.authenticate together with the number of
password-hash computations performed on the way (backends.py runs the
default hasher even when no account resolves, to keep timing flat). -/
structure AuthResult where
  user : Option User
  hash_ops : Nat
deriving DecidableEq

/-- EmailAuthBackend.authenticate (backends.py lines 22-58): resolve by
lowercased email; if absent, run a dummy hash over the password and fail;
then reject locked, then inactive accounts; finally check the password. -/
def authenticate (db : List User) (email : Option String) (password : Option String)
    (now : Nat) : AuthResult :=
  match email, password with
  | some e, some p =>
    match findUser db (lowerString e) with
    | none => { user := none, hash_ops := 1 }
    | some u =>
      if u.is_locked now then { user := none, hash_ops := 0 }
      else if u.is_active = false then { user := none, hash_ops := 0 }
      else if u.check_password p then { user := some u, hash_ops := 1 }
      else { user := none, hash_ops := 1 }
  | _, _ => { user := none, hash_ops := 0 }

/-- The outcome SecureLoginForm.clean surfaces to its caller: either an
authenticated user or a ValidationError message. -/
inductive LoginOutcome where
  | success (u : User)
  | failure (msg : String)
deriving DecidableEq

/-- Outcome of the form's clean together with the (possibly updated) user
table and the hash-computation count of the authenticate call. -/
structure CleanResult where
  outcome : LoginOutcome
  db : List User
  hash_ops : Nat
deriving DecidableEq

/-- forms.py line 210: email.strip().lower(). -/
def normalizeEmail (s : String) : String :=
  lowerString (stripString s)

/-- The ValidationError message raised for a locked account
(forms.py lines 218-222). -/
def lockedMessage (remaining : Nat) : String :=
  "Account is temporarily locked. Try again in " ++ toString remaining ++ " minutes."

/-- The ValidationError message for a deactivated account (forms.py line 225). -/
def inactiveMessage : String :=
  "This account has been deactivated."

/-- The ValidationError message for failed authentication
(forms.py lines 246-248). -/
def invalidMessage : String :=
  "Invalid email or password. Please try again."

/-- Stand-in for a required-field error: when email or password is blank the
form is invalid before clean's authentication logic runs. -/
def missingFieldMessage : String :=
  "This field is required."

/-- The tail of SecureLoginForm.clean (forms.py lines 231-248): call
authenticate; on None, re-fetch the user and record the failed attempt when
the identity resolves, then raise the generic invalid-credentials error. -/
def authAndRecord (db : List User) (e p : String) (now : Nat) : CleanResult :=
  let r := authenticate db (some e) (some p) now
  match r.user with
  | some u => { outcome := .success u, db := db, hash_ops := r.hash_ops }
  | none =>
    match findUser db e with
    | some u =>
      { outcome := .failure invalidMessage,
        db := updateUser db e (u.record_failed_login now),
        hash_ops := r.hash_ops }
    | none =>
      { outcome := .failure invalidMessage, db := db, hash_ops := r.hash_ops }

/-- SecureLoginForm.clean (forms.py lines 207-250), together with the
form's required-field validation: normalize the email; if the identity
resolves, first reject a locked account (with the remaining minutes), then
a deactivated one; otherwise authenticate and on failure record the failed
attempt and raise the generic error. -/
def clean (db : List User) (email password : String) (now : Nat) : CleanResult :=
  let e := normalizeEmail email
  if e = "" ∨ password = "" then
    { outcome := .failure missingFieldMessage, db := db, hash_ops := 0 }
  else
    match findUser db e with
    | some u =>
      if u.is_locked now then
        { outcome := .failure (lockedMessage (u.get_lockout_remaining now)),
          db := db, hash_ops := 0 }
      else if u.is_active = false then
        { outcome := .failure inactiveMessage, db := db, hash_ops := 0 }
      else authAndRecord db e password now
    | none => authAndRecord db e password now

/-- A LoginHistory row (models.py lines 337-370): the audit record written
for one login attempt. The account reference is modelled by the referenced
account's email. -/
structure AttemptRecord where
  user : Option String
  email_attempted : String
  ip_address : String
  user_agent : String
  success : Bool
  failure_reason : String
deriving DecidableEq

/-- Persistent state the login view reads and writes: the user table and
the LoginHistory table. -/
structure LoginState where
  db : List User
  history : List AttemptRecord
deriving DecidableEq

/-- One inbound login POST: submitted fields plus request metadata. -/
structure Attempt where
  email : String
  password : String
  ip : String
  agent : String
  time : Nat
deriving DecidableEq

/-- LoginView.post failure-path reason (views.py lines 154-162): re-fetch
by lowercased raw email; locked wins over inactive, else invalid
credentials; unresolved identities also map to invalid credentials. -/
def failureReason (db : List User) (rawEmail : String) (now : Nat) : String :=
  match findUser db (lowerString rawEmail) with
  | some u =>
    if u.is_locked now then "account_locked"
    else if u.is_active = false then "account_inactive"
    else "invalid_credentials"
  | none => "invalid_credentials"

/-- The single LoginHistory row LoginView.post creates for an attempt
(views.py lines 122-128 on success, 164-171 on failure). On failure the
row is written with user=None even when the email resolves. -/
def newRecord (st : LoginState) (a : Attempt) : AttemptRecord :=
  match (clean st.db a.email a.password a.time).outcome with
  | .success u =>
    { user := some u.email, email_attempted := u.email, ip_address := a.ip,
      user_agent := takeString a.agent 500, success := true, failure_reason := "" }
  | .failure _ =>
    { user := none, email_attempted := a.email, ip_address := a.ip,
      user_agent := takeString a.agent 500, success := false,
      failure_reason :=
        failureReason (clean st.db a.email a.password a.time).db a.email a.time }

/-- LoginView.post (views.py lines 110-173): run the form's clean; on
success append the success row and record the successful login on the
account; on failure keep clean's table update and append the failure row. -/
def loginPost (st : LoginState) (a : Attempt) : LoginState :=
  match (clean st.db a.email a.password a.time).outcome with
  | .success u =>
    { db := updateUser (clean st.db a.email a.password a.time).db u.email
              (u.record_successful_login a.time (some a.ip)),
      history := st.history ++ [newRecord st a] }
  | .failure _ =>
    { db := (clean st.db a.email a.password a.time).db,
      history := st.history ++ [newRecord st a] }

/-- Process a sequence of login attempts in order. -/
def runAttempts (st : LoginState) : List Attempt → LoginState
  | [] => st
  | a :: rest => runAttempts (loginPost st a) rest

/-- One rate-limiter cache entry (middleware.py line 91):
a request count and the window start time. -/
structure RateData where
  count : Nat
  start : Nat
deriving DecidableEq

/-- RateLimitMiddleware._is_rate_limited (middleware.py lines 82-104) for a
fixed (endpoint, client address) key: returns whether the request is
rejected, together with the updated cache entry. First request or a
request strictly after the window elapsed resets the count to 1 and is
allowed; otherwise the count is incremented and the request is rejected
exactly when the new count exceeds the limit. -/
def is_rate_limited (entry : Option RateData) (now : Nat) (limit window : Nat) :
    Bool × Option RateData :=
  match entry with
  | none => (false, some { count := 1, start := now })
  | some d =>
    if window < now - d.start then (false, some { count := 1, start := now })
    else
      (decide (limit < d.count + 1), some { d with count := d.count + 1 })

/-- The cache entry after n consecutive requests at time t on a fresh key. -/
def rateRun (limit window t : Nat) : Nat → Option RateData
  | 0 => none
  | n + 1 => (is_rate_limited (rateRun limit window t n) t limit window).snd

/-- A PasswordResetRequest row (models.py lines 205-280), with the
requesting account embedded so that approve's write to the account is
visible in the result. -/
structure ResetRequest where
  user : User
  reason : String
  status : String
  request_ip : Option String
  user_agent : String
  processed_by : Option String
  processed_at : Option Nat
  admin_notes : String
  temp_password_hash : String
  temp_password_expires : Option Nat
deriving DecidableEq

/-- PasswordResetRequest.approve (models.py lines 289-316): set
status/resolver/resolution time; when a (truthy) temporary password is
supplied, store its hash with a 24-hour expiry and overwrite the
requester's password hash, stamping last_password_change. -/
def ResetRequest.approve (r : ResetRequest) (admin : User) (temp_password : Option String)
    (now : Nat) : ResetRequest :=
  let r1 := { r with status := "approved", processed_by := some admin.email,
                     processed_at := some now }
  match temp_password with
  | some p =>
    if p = "" then r1
    else
      { r1 with temp_password_hash := make_password p,
                temp_password_expires := some (now + 24 * 3600),
                user := { (r1.user.set_password p) with last_password_change := some now } }
  | none => r1

/-- Ceiling division, used to state what the spec asserts about the
remaining-minutes computation. -/
def ceilDiv (a b : Nat) : Nat :=
  (a + b - 1) / b

-- ===========================================================================
-- Concrete fixtures used by witnesses and counterexamples
-- ===========================================================================

/-- An ordinary active account with a known password. -/
def uAlice : User :=
  { email := "alice@example.com", password := make_password "Right1!",
    is_active := true, is_verified := true, failed_login_attempts := 0,
    lockout_until := none, last_login := none, last_login_ip := none,
    last_password_change := none }

/-- An account with four prior failed attempts: the next failure locks it. -/
def uFour : User :=
  { uAlice with email := "four@example.com", failed_login_attempts := 4 }

/-- An account locked for exactly 120 more seconds at time 0. -/
def uLocked : User :=
  { uAlice with email := "lock@example.com", failed_login_attempts := 5,
                lockout_until := some 120 }

/-- A deactivated, not-locked account. -/
def uInactive : User :=
  { uAlice with email := "off@example.com", is_active := false }

/-- A deactivated account that is also locked until time 1000. -/
def uInactiveLocked : User :=
  { uAlice with email := "both@example.com", is_active := false,
                lockout_until := some 1000 }

/-- A pending reset request for uAlice. -/
def rPending : ResetRequest :=
  { user := uAlice, reason := "forgot my password entirely", status := "pending",
    request_ip := some "9.9.9.9", user_agent := "UA", processed_by := none,
    processed_at := none, admin_notes := "", temp_password_hash := "",
    temp_password_expires := none }

/-- A staff account used as the resolver. -/
def uAdmin : User :=
  { uAlice with email := "admin@example.com" }

/-- A login state holding only uAlice, with an empty audit trail. -/
def stAlice : LoginState :=
  { db := [uAlice], history := [] }

/-- A wrong-password attempt against uAlice. -/
def aWrongAlice : Attempt :=
  { email := "alice@example.com", password := "wrong", ip := "9.9.9.9",
    agent := "UA", time := 5 }

-- ===========================================================================
-- Helper lemmas
-- ===========================================================================

/-- loginPost appends exactly the one record built by newRecord. -/
theorem loginPost_history (st : LoginState) (a : Attempt) :
    (loginPost st a).history = st.history ++ [newRecord st a] := by
  unfold loginPost
  split <;> rfl

/-- After n+1 consecutive requests at time t on a fresh key, the cache
entry holds count n+1 with window start t. -/
theorem rateRun_succ (limit window t : Nat) (n : Nat) :
    rateRun limit window t (n + 1) = some { count := n + 1, start := t } := by
  induction n with
  | zero => rfl
  | succ k ih =>
    show (is_rate_limited (rateRun limit window t (k + 1)) t limit window).snd = _
    rw [ih]
    simp [is_rate_limited]

-- ===========================================================================
-- Claims
-- ===========================================================================

/-- Claim C1: recording a password mismatch increments failed_attempts by
exactly one; whenever the post-increment value is at least 5, lockout_until
is set to now plus min(5 * 2^(failed_attempts - 5), 60) minutes, and that
computed duration never exceeds 60 minutes for any counter value. -/
theorem record_failed_login_increment_and_capped_lockout (u v : User) (now : Nat)
    (h : 5 ≤ v.failed_login_attempts + 1) :
    (u.record_failed_login now).failed_login_attempts = u.failed_login_attempts + 1 ∧
    (v.record_failed_login now).lockout_until =
      some (now + min (5 * 2 ^ (v.failed_login_attempts + 1 - 5)) 60 * 60) ∧
    min (5 * 2 ^ (v.failed_login_attempts + 1 - 5)) 60 ≤ 60 := by
  refine ⟨?_, ?_, min_le_right _ _⟩
  · unfold User.record_failed_login
    split <;> rfl
  · unfold User.record_failed_login
    rw [if_pos h]

/-- Claim C1 witness: a fresh account and an account with 4 prior failures,
both failing once more at time 100. -/
theorem record_failed_login_increment_and_capped_lockout_witness :
    (uAlice.record_failed_login 100).failed_login_attempts =
      uAlice.failed_login_attempts + 1 ∧
    (uFour.record_failed_login 100).lockout_until =
      some (100 + min (5 * 2 ^ (uFour.failed_login_attempts + 1 - 5)) 60 * 60) ∧
    min (5 * 2 ^ (uFour.failed_login_attempts + 1 - 5)) 60 ≤ 60 :=
  record_failed_login_increment_and_capped_lockout uAlice uFour 100 (by decide)

/-- Claim C2: recording a successful login resets failed_attempts to 0,
clears lockout_until, stamps the last-login time and sets the last-login
client address, regardless of the prior counter value or lockout state. -/
theorem record_successful_login_resets (u : User) (now : Nat) (ip : String)
    (hip : ip ≠ "") :
    u.record_successful_login now (some ip) =
      { u with failed_login_attempts := 0, lockout_until := none,
               last_login := some now, last_login_ip := some ip } := by
  simp only [User.record_successful_login]
  rw [if_neg hip]

/-- Claim C2 witness: a successful login on the locked uLocked account. -/
theorem record_successful_login_resets_witness :
    uLocked.record_successful_login 300 (some "1.2.3.4") =
      { uLocked with failed_login_attempts := 0, lockout_until := none,
                     last_login := some 300, last_login_ip := some "1.2.3.4" } :=
  record_successful_login_resets uLocked 300 "1.2.3.4" (by decide)

/-- Claim C3 (amended): a resolved account whose lockout is still in the
future short-circuits any login attempt to the account-locked failure
carrying floor(seconds_remaining / 60) + 1 minutes, leaving the user table
(and hence failed_attempts) untouched. -/
theorem locked_account_short_circuit (db : List User) (email pw : String)
    (now t : Nat) (u : User)
    (hne : normalizeEmail email ≠ "") (hpw : pw ≠ "")
    (hfind : findUser db (normalizeEmail email) = some u)
    (hlk : u.lockout_until = some t) (hfut : now < t) :
    (clean db email pw now).outcome =
      .failure (lockedMessage ((t - now) / 60 + 1)) ∧
    (clean db email pw now).db = db := by
  have hcond : ¬(normalizeEmail email = "" ∨ pw = "") := by
    simp [hne, hpw]
  have hl : u.is_locked now = true := by
    simp [User.is_locked, hlk, hfut]
  have hr : u.get_lockout_remaining now = (t - now) / 60 + 1 := by
    simp [User.get_lockout_remaining, hlk, hfut]
  simp [clean, hcond, hfind, hl, hr]

/-- Claim C3 witness: uLocked with 120 seconds remaining at time 0. -/
theorem locked_account_short_circuit_witness :
    normalizeEmail "lock@example.com" ≠ "" ∧ "whatever" ≠ "" ∧
    findUser [uLocked] (normalizeEmail "lock@example.com") = some uLocked ∧
    uLocked.lockout_until = some 120 ∧ (0 : Nat) < 120 ∧
    (clean [uLocked] "lock@example.com" "whatever" 0).outcome =
      .failure (lockedMessage ((120 - 0) / 60 + 1)) ∧
    (clean [uLocked] "lock@example.com" "whatever" 0).db = [uLocked] := by
  refine ⟨by decide, by decide, by decide, by decide, by decide, ?_, ?_⟩
  · exact (locked_account_short_circuit [uLocked] "lock@example.com" "whatever" 0 120
      uLocked (by decide) (by decide) (by decide) (by decide) (by decide)).1
  · exact (locked_account_short_circuit [uLocked] "lock@example.com" "whatever" 0 120
      uLocked (by decide) (by decide) (by decide) (by decide) (by decide)).2

/-- Claim C3 counterexample: with exactly 120 seconds of lockout remaining
the code reports 3 minutes, whereas ceil(120 / 60) = 2, so the reported
remaining-minutes value is not ceil(seconds_remaining / 60). -/
theorem lockout_remaining_exceeds_ceiling :
    uLocked.lockout_until = some 120 ∧ (0 : Nat) < 120 ∧
    uLocked.get_lockout_remaining 0 = 3 ∧
    ceilDiv (120 - 0) 60 = 2 ∧
    uLocked.get_lockout_remaining 0 ≠ ceilDiv (120 - 0) 60 := by
  decide

/-- Claim C4: every processed login attempt, whatever its outcome, appends
exactly one AttemptRecord, so N attempts from an empty audit trail leave
exactly N records. -/
theorem every_attempt_writes_one_record (st : LoginState) (a : Attempt)
    (db : List User) (attempts : List Attempt) :
    (loginPost st a).history.length = st.history.length + 1 ∧
    (runAttempts { db := db, history := [] } attempts).history.length =
      attempts.length := by
  have key : ∀ (l : List Attempt) (s : LoginState),
      (runAttempts s l).history.length = s.history.length + l.length := by
    intro l
    induction l with
    | nil => intro s; simp [runAttempts]
    | cons b rest ih =>
      intro s
      have hstep : runAttempts s (b :: rest) = runAttempts (loginPost s b) rest := rfl
      rw [hstep, ih, loginPost_history]
      simp
      omega
  constructor
  · rw [loginPost_history]
    simp
  · simpa using key attempts { db := db, history := [] }

/-- Claim C5: on a fresh key the first request is allowed; the k-th of a
burst is allowed for every k up to the limit and the (limit+1)-th is
rejected; within the window a request is rejected exactly when the
incremented count exceeds the limit; a request strictly after the window
has elapsed resets the counter to 1 and is allowed. -/
theorem rate_limiter_window_behavior (limit window t k m1 m2 : Nat)
    (d1 d2 : RateData)
    (hlim : 1 ≤ limit) (hk1 : 1 ≤ k) (hk2 : k ≤ limit)
    (h1 : m1 - d1.start ≤ window) (h2 : window < m2 - d2.start) :
    is_rate_limited none t limit window = (false, some { count := 1, start := t }) ∧
    (is_rate_limited (rateRun limit window t (k - 1)) t limit window).fst = false ∧
    (is_rate_limited (rateRun limit window t limit) t limit window).fst = true ∧
    (is_rate_limited (some d1) m1 limit window).fst = decide (limit < d1.count + 1) ∧
    is_rate_limited (some d2) m2 limit window =
      (false, some { count := 1, start := m2 }) := by
  refine ⟨rfl, ?_, ?_, ?_, ?_⟩
  · cases k with
    | zero => omega
    | succ j =>
      cases j with
      | zero => rfl
      | succ i =>
        rw [show i + 1 + 1 - 1 = i + 1 from rfl, rateRun_succ]
        simp [is_rate_limited]
        omega
  · obtain ⟨j, rfl⟩ : ∃ j, limit = j + 1 := ⟨limit - 1, by omega⟩
    rw [rateRun_succ]
    simp [is_rate_limited]
  · simp only [is_rate_limited]
    rw [if_neg (Nat.not_lt.mpr h1)]
  · simp only [is_rate_limited]
    rw [if_pos h2]

/-- Claim C5 witness at the login configuration limit=5, window=60. -/
theorem rate_limiter_window_behavior_witness :
    (1 : Nat) ≤ 5 ∧ (1 : Nat) ≤ 3 ∧ (3 : Nat) ≤ 5 ∧
    30 - (10 : Nat) ≤ 60 ∧ (60 : Nat) < 100 - 0 ∧
    is_rate_limited none 0 5 60 = (false, some { count := 1, start := 0 }) ∧
    (is_rate_limited (rateRun 5 60 0 (3 - 1)) 0 5 60).fst = false ∧
    (is_rate_limited (rateRun 5 60 0 5) 0 5 60).fst = true ∧
    (is_rate_limited (some { count := 2, start := 10 }) 30 5 60).fst =
      decide (5 < 2 + 1) ∧
    is_rate_limited (some { count := 4, start := 0 }) 100 5 60 =
      (false, some { count := 1, start := 100 }) := by
  refine ⟨by decide, by decide, by decide, by decide, by decide, ?_⟩
  exact rate_limiter_window_behavior 5 60 0 3 30 100
    { count := 2, start := 10 } { count := 4, start := 0 }
    (by decide) (by decide) (by decide) (by decide) (by decide)

/-- Claim C6 (amended): a resolved deactivated account that is not
currently locked short-circuits a login attempt to the account-inactive
failure without touching the user table; the lockout check runs first, so
an account both inactive and locked yields the locked failure instead. -/
theorem inactive_account_short_circuit (db : List User) (email pw : String)
    (now : Nat) (u : User)
    (hne : normalizeEmail email ≠ "") (hpw : pw ≠ "")
    (hfind : findUser db (normalizeEmail email) = some u)
    (hact : u.is_active = false) (hnl : u.is_locked now = false) :
    (clean db email pw now).outcome = .failure inactiveMessage ∧
    (clean db email pw now).db = db := by
  have hcond : ¬(normalizeEmail email = "" ∨ pw = "") := by
    simp [hne, hpw]
  simp [clean, hcond, hfind, hact, hnl]

/-- Claim C6 witness: the deactivated, unlocked account uInactive. -/
theorem inactive_account_short_circuit_witness :
    normalizeEmail "off@example.com" ≠ "" ∧ "pw" ≠ "" ∧
    findUser [uInactive] (normalizeEmail "off@example.com") = some uInactive ∧
    uInactive.is_active = false ∧ uInactive.is_locked 0 = false ∧
    (clean [uInactive] "off@example.com" "pw" 0).outcome = .failure inactiveMessage ∧
    (clean [uInactive] "off@example.com" "pw" 0).db = [uInactive] := by
  refine ⟨by decide, by decide, by decide, by decide, by decide, ?_, ?_⟩
  · exact (inactive_account_short_circuit [uInactive] "off@example.com" "pw" 0
      uInactive (by decide) (by decide) (by decide) (by decide) (by decide)).1
  · exact (inactive_account_short_circuit [uInactive] "off@example.com" "pw" 0
      uInactive (by decide) (by decide) (by decide) (by decide) (by decide)).2

/-- Claim C6 counterexample: an account that is both deactivated and still
locked is reported as locked, not as inactive — the lockout check precedes
the active check. -/
theorem inactive_locked_account_yields_locked :
    uInactiveLocked.is_active = false ∧
    uInactiveLocked.lockout_until = some 1000 ∧ (0 : Nat) < 1000 ∧
    (clean [uInactiveLocked] "both@example.com" "pw" 0).outcome =
      .failure (lockedMessage 17) ∧
    (clean [uInactiveLocked] "both@example.com" "pw" 0).outcome ≠
      .failure inactiveMessage := by
  decide

/-- Claim C7: approving a pending reset request with a temporary secret
sets status, resolver and resolution time, stores the hashed secret with a
24-hour expiry, and replaces the requester account's password hash with
the secret's hash (stamping last_password_change), so the account then
validates against the temporary secret. -/
theorem approve_with_secret_replaces_credential (r : ResetRequest) (admin : User)
    (p : String) (now : Nat) (hpend : r.status = "pending") (hp : p ≠ "") :
    (r.approve admin (some p) now).status = "approved" ∧
    (r.approve admin (some p) now).processed_by = some admin.email ∧
    (r.approve admin (some p) now).processed_at = some now ∧
    (r.approve admin (some p) now).temp_password_hash = make_password p ∧
    (r.approve admin (some p) now).temp_password_expires = some (now + 24 * 3600) ∧
    (r.approve admin (some p) now).user.password = make_password p ∧
    (r.approve admin (some p) now).user.last_password_change = some now ∧
    (r.approve admin (some p) now).user.check_password p = true := by
  simp only [ResetRequest.approve, User.set_password]
  rw [if_neg hp]
  refine ⟨rfl, rfl, rfl, rfl, rfl, rfl, rfl, ?_⟩
  simp [User.check_password]

/-- Claim C7 witness: rPending approved by uAdmin with a temporary secret
at time 500. -/
theorem approve_with_secret_replaces_credential_witness :
    rPending.status = "pending" ∧ "TempPass9!" ≠ "" ∧
    (rPending.approve uAdmin (some "TempPass9!") 500).status = "approved" ∧
    (rPending.approve uAdmin (some "TempPass9!") 500).processed_by =
      some uAdmin.email ∧
    (rPending.approve uAdmin (some "TempPass9!") 500).processed_at = some 500 ∧
    (rPending.approve uAdmin (some "TempPass9!") 500).temp_password_hash =
      make_password "TempPass9!" ∧
    (rPending.approve uAdmin (some "TempPass9!") 500).temp_password_expires =
      some (500 + 24 * 3600) ∧
    (rPending.approve uAdmin (some "TempPass9!") 500).user.password =
      make_password "TempPass9!" ∧
    (rPending.approve uAdmin (some "TempPass9!") 500).user.last_password_change =
      some 500 ∧
    (rPending.approve uAdmin (some "TempPass9!") 500).user.check_password
      "TempPass9!" = true := by
  refine ⟨by decide, by decide, ?_⟩
  have h := approve_with_secret_replaces_credential rPending uAdmin "TempPass9!" 500
    (by decide) (by decide)
  exact ⟨h.1, h.2.1, h.2.2.1, h.2.2.2.1, h.2.2.2.2.1, h.2.2.2.2.2.1,
    h.2.2.2.2.2.2.1, h.2.2.2.2.2.2.2⟩

/-- Claim C8: when the identity resolves to no account, a password-hash
computation is still performed over the submitted secret and the outcome is
the generic invalid-credentials failure, equal — in both outcome and
hash-computation count — to the outcome for an existing account with a
wrong secret. -/
theorem unresolved_identity_indistinguishable (db : List User)
    (e1 p1 e2 p2 : String) (now : Nat) (u : User)
    (hne1 : normalizeEmail e1 ≠ "") (hp1 : p1 ≠ "")
    (hne2 : normalizeEmail e2 ≠ "") (hp2 : p2 ≠ "")
    (h1 : findUser db (normalizeEmail e1) = none)
    (h1l : findUser db (lowerString (normalizeEmail e1)) = none)
    (h2 : findUser db (normalizeEmail e2) = some u)
    (h2l : findUser db (lowerString (normalizeEmail e2)) = some u)
    (hnl : u.is_locked now = false) (hact : u.is_active = true)
    (hpw : u.check_password p2 = false) :
    (authenticate db (some (normalizeEmail e1)) (some p1) now).hash_ops = 1 ∧
    (authenticate db (some (normalizeEmail e1)) (some p1) now).user = none ∧
    (clean db e1 p1 now).outcome = .failure invalidMessage ∧
    (clean db e2 p2 now).outcome = .failure invalidMessage ∧
    (clean db e1 p1 now).outcome = (clean db e2 p2 now).outcome ∧
    (clean db e1 p1 now).hash_ops = (clean db e2 p2 now).hash_ops := by
  have hcond1 : ¬(normalizeEmail e1 = "" ∨ p1 = "") := by simp [hne1, hp1]
  have hcond2 : ¬(normalizeEmail e2 = "" ∨ p2 = "") := by simp [hne2, hp2]
  have c1 : clean db e1 p1 now =
      { outcome := .failure invalidMessage, db := db, hash_ops := 1 } := by
    simp [clean, authAndRecord, authenticate, hcond1, h1, h1l]
  have c2 : clean db e2 p2 now =
      { outcome := .failure invalidMessage,
        db := updateUser db (normalizeEmail e2) (u.record_failed_login now),
        hash_ops := 1 } := by
    simp [clean, authAndRecord, authenticate, hcond2, h2, h2l, hnl, hact, hpw]
  refine ⟨?_, ?_, ?_, ?_, ?_, ?_⟩
  · simp [authenticate, h1l]
  · simp [authenticate, h1l]
  · rw [c1]
  · rw [c2]
  · rw [c1, c2]
  · rw [c1, c2]

/-- Claim C8 witness: an unknown identity versus uAlice with a wrong
password, both at time 7. -/
theorem unresolved_identity_indistinguishable_witness :
    normalizeEmail "ghost@example.com" ≠ "" ∧ "anything" ≠ "" ∧
    normalizeEmail "alice@example.com" ≠ "" ∧ "wrong" ≠ "" ∧
    findUser [uAlice] (normalizeEmail "ghost@example.com") = none ∧
    findUser [uAlice] (normalizeEmail "alice@example.com") = some uAlice ∧
    uAlice.is_locked 7 = false ∧ uAlice.is_active = true ∧
    uAlice.check_password "wrong" = false ∧
    (authenticate [uAlice] (some (normalizeEmail "ghost@example.com"))
      (some "anything") 7).hash_ops = 1 ∧
    (authenticate [uAlice] (some (normalizeEmail "ghost@example.com"))
      (some "anything") 7).user = none ∧
    (clean [uAlice] "ghost@example.com" "anything" 7).outcome =
      .failure invalidMessage ∧
    (clean [uAlice] "alice@example.com" "wrong" 7).outcome =
      .failure invalidMessage ∧
    (clean [uAlice] "ghost@example.com" "anything" 7).outcome =
      (clean [uAlice] "alice@example.com" "wrong" 7).outcome ∧
    (clean [uAlice] "ghost@example.com" "anything" 7).hash_ops =
      (clean [uAlice] "alice@example.com" "wrong" 7).hash_ops := by
  refine ⟨by decide, by decide, by decide, by decide, by decide, by decide,
    by decide, by decide, by decide, ?_⟩
  have h := unresolved_identity_indistinguishable [uAlice]
    "ghost@example.com" "anything" "alice@example.com" "wrong" 7 uAlice
    (by decide) (by decide) (by decide) (by decide) (by decide) (by decide)
    (by decide) (by decide) (by decide) (by decide) (by decide)
  exact ⟨h.1, h.2.1, h.2.2.1, h.2.2.2.1, h.2.2.2.2.1, h.2.2.2.2.2⟩

/-- Claim C9 (amended): the one AttemptRecord a processed login attempt
appends carries an account reference exactly when the attempt succeeded;
every failed attempt — resolving identity or not — is recorded with the
reference unset. -/
theorem attempt_record_user_set_iff_success (st : LoginState) (a : Attempt) :
    (loginPost st a).history = st.history ++ [newRecord st a] ∧
    (newRecord st a).user.isSome = (newRecord st a).success := by
  refine ⟨loginPost_history st a, ?_⟩
  unfold newRecord
  split <;> rfl

/-- Claim C9 counterexample: a wrong-password attempt against the existing
account uAlice is logged with no account reference, although the submitted
identity resolves. -/
theorem failed_attempt_record_lacks_account_reference :
    findUser stAlice.db (normalizeEmail aWrongAlice.email) = some uAlice ∧
    (newRecord stAlice aWrongAlice).success = false ∧
    (newRecord stAlice aWrongAlice).user = none := by
  decide

/-- Claim C10: approving a reset request without a temporary secret changes
only the request's status, resolver and resolution time; the requester's
password hash and last_password_change, and the request's stored temporary
hash and expiry, are all unchanged. -/
theorem approve_without_secret_changes_only_resolution (r : ResetRequest)
    (admin : User) (now : Nat) :
    r.approve admin none now =
      { r with status := "approved", processed_by := some admin.email,
               processed_at := some now } ∧
    (r.approve admin none now).user = r.user ∧
    (r.approve admin none now).user.password = r.user.password ∧
    (r.approve admin none now).user.last_password_change =
      r.user.last_password_change ∧
    (r.approve admin none now).temp_password_hash = r.temp_password_hash ∧
    (r.approve admin none now).temp_password_expires = r.temp_password_expires :=
  ⟨rfl, rfl, rfl, rfl, rfl, rfl⟩

end Portfolio

